import Mathlib

/-!
Verification of the crossflowlab heat-exchanger engine (`crossflow.py`).

The source is a Python dataclass `ThermoFluidProperties` whose methods
compute, in order: water mass flow, heat duty, air mass flow, heat
capacity rates, actual/maximum heat transfer, effectiveness, NTU (via
`scipy.optimize.fsolve`), and — independently — a straight-fin
efficiency.

Embedding choices:
* Python floats are modelled by ℚ (exact rational arithmetic); the one
  transcendental computation (fin efficiency) is modelled over ℝ.
* Python raises built-in exceptions on bad arithmetic; the source
  defines no exception classes of its own.  Fallible methods return
  `Except PyError`, where `PyError` lists exactly the built-in
  exceptions the translated code can raise: `zeroDivisionError` for a
  float division by zero, and `typeError` for arithmetic on a field
  still holding `None`.
* Methods that mutate `self` are modelled by explicit state passing:
  they return the updated record alongside the Python return value.
* `scipy.optimize.fsolve` is an external library routine, not code of
  this repository; its output is modelled as an explicit argument
  `ntu_solution` to `calculate_NTU_from_effectiveness`, which lets the
  theorems speak about what the source does with that output (namely:
  nothing — it is returned unchecked).
-/

/-- Python built-in exceptions that the translated methods can raise.
`zeroDivisionError` models `ZeroDivisionError` (float division by zero);
`typeError` models `TypeError` (arithmetic on a `None`-valued field).
The source defines no exception classes of its own — in particular no
`DegenerateCondition`, `InvalidInput` or `SolverNonConvergence`. -/
inductive PyError where
  | zeroDivisionError
  | typeError
deriving DecidableEq, Repr

/-- Python float division: `a / b` raises `ZeroDivisionError` when `b = 0`. -/
def pyDiv (a b : ℚ) : Except PyError ℚ :=
  if b = 0 then .error .zeroDivisionError else .ok (a / b)

/-- Reading an `Optional[float]` field for arithmetic: `None` raises
`TypeError` (`unsupported operand type NoneType`). -/
def getFloat (x : Option ℚ) : Except PyError ℚ :=
  match x with
  | some v => .ok v
  | none => .error .typeError

/-- The dataclass `ThermoFluidProperties` (crossflow.py lines 7–34).
Field order and defaults follow the source.  The four `deltaT`-style
fields are dataclass fields whose defaults were evaluated once, at class
creation time, from the class-level default temperatures — so their
defaults are the fixed numbers `47.4 - 43.0`, `46.4 - 25.5`,
`47.4 - 46.4`, `43.0 - 25.5`, independent of any constructor-supplied
temperatures. -/
structure ThermoFluidProperties where
  cmin : Option ℚ := none
  cr : Option ℚ := none
  water_flow_rate_L_min : ℚ := 2.10
  water_vol_flow_rate : Option ℚ := none
  water_density : ℚ := 1000.0
  water_mass_flow_rate : Option ℚ := none
  water_specific_heat : ℚ := 4.18
  T_hot_in : ℚ := 47.4
  T_hot_out : ℚ := 46.4
  T_cold_in : ℚ := 25.5
  T_cold_out : ℚ := 43.0
  deltaT1 : ℚ := 47.4 - 43.0
  deltaT2 : ℚ := 46.4 - 25.5
  water_temp_change : ℚ := 47.4 - 46.4
  air_temp_change : ℚ := 43.0 - 25.5
  air_specific_heat : ℚ := 1.005
  air_mass_flow_rate : Option ℚ := none
deriving DecidableEq, Repr

namespace ThermoFluidProperties

/-- Constructing `ThermoFluidProperties(T_hot_in=…, T_hot_out=…,
T_cold_in=…, T_cold_out=…)`: only the four temperature fields are
supplied; every other field, the derived `deltaT` fields included,
takes its dataclass default. -/
def mkWithTemperatures (thIn thOut tcIn tcOut : ℚ) : ThermoFluidProperties :=
  { T_hot_in := thIn, T_hot_out := thOut, T_cold_in := tcIn, T_cold_out := tcOut }

/-- `calculate_duty` (lines 36–41): `Q = water_mass_flow_rate *
water_specific_heat * water_temp_change * 1000`.  Raises `TypeError`
when `water_mass_flow_rate` is still `None`. -/
def calculate_duty (s : ThermoFluidProperties) : Except PyError ℚ := do
  let m ← getFloat s.water_mass_flow_rate
  pure (m * s.water_specific_heat * s.water_temp_change * 1000)

/-- `calculate_water_mass_flow` (lines 43–47): sets
`water_vol_flow_rate` and `water_mass_flow_rate` on `self` and returns
the mass flow rate.  Pure arithmetic, cannot raise. -/
def calculate_water_mass_flow (s : ThermoFluidProperties) :
    ThermoFluidProperties × ℚ :=
  let vol := s.water_flow_rate_L_min * (1/1000) * (1/60)
  let mass := vol * s.water_density
  ({ s with water_vol_flow_rate := some vol, water_mass_flow_rate := some mass },
   mass)

/-- `calculate_air_mass_flow` (lines 49–53): `Q / (air_specific_heat *
air_temp_change * 1000)`, cached into `air_mass_flow_rate`. -/
def calculate_air_mass_flow (s : ThermoFluidProperties) :
    Except PyError (ThermoFluidProperties × ℚ) := do
  let Q ← calculate_duty s
  let m ← pyDiv Q (s.air_specific_heat * s.air_temp_change * 1000)
  pure ({ s with air_mass_flow_rate := some m }, m)

/-- `calculate_heat_capacity_rates` (lines 56–65): computes
`C_h = water_mass_flow_rate * water_specific_heat * 1000` and
`C_c = air_mass_flow_rate * air_specific_heat * 1000`, caches
`cr = C_c / C_h` and `cmin = C_h if C_h <= C_c else C_c`, and returns
the pair `(C_h, C_c)`. -/
def calculate_heat_capacity_rates (s : ThermoFluidProperties) :
    Except PyError (ThermoFluidProperties × ℚ × ℚ) := do
  let wm ← getFloat s.water_mass_flow_rate
  let am ← getFloat s.air_mass_flow_rate
  let C_h := wm * s.water_specific_heat * 1000
  let C_c := am * s.air_specific_heat * 1000
  let newCr ← pyDiv C_c C_h
  let newCmin := if C_h ≤ C_c then C_h else C_c
  pure ({ s with cr := some newCr, cmin := some newCmin }, C_h, C_c)

/-- `calculate_actual_heat_transfer` (lines 72–75): recomputes the
capacity rates (mutating `self`) and returns `C_h * water_temp_change`. -/
def calculate_actual_heat_transfer (s : ThermoFluidProperties) :
    Except PyError (ThermoFluidProperties × ℚ) := do
  let (s1, C_h, _) ← calculate_heat_capacity_rates s
  pure (s1, C_h * s1.water_temp_change)

/-- `calculate_max_heat_transfer` (lines 77–80): recomputes the capacity
rates (which sets `self.cmin`) and returns
`cmin * (T_hot_in - T_cold_in)`. -/
def calculate_max_heat_transfer (s : ThermoFluidProperties) :
    Except PyError (ThermoFluidProperties × ℚ) := do
  let (s1, _, _) ← calculate_heat_capacity_rates s
  let cm ← getFloat s1.cmin
  pure (s1, cm * (s1.T_hot_in - s1.T_cold_in))

/-- `calculate_effectiveness` (lines 82–86): `q_actual / q_max`, with no
validation of the quotient; a zero `q_max` raises the built-in
`ZeroDivisionError`. -/
def calculate_effectiveness (s : ThermoFluidProperties) :
    Except PyError (ThermoFluidProperties × ℚ) := do
  let (s1, q_actual) ← calculate_actual_heat_transfer s
  let (s2, q_max) ← calculate_max_heat_transfer s1
  let eps ← pyDiv q_actual q_max
  pure (s2, eps)

/-- `calculate_NTU_from_effectiveness` (lines 88–103): the source hands
a residual closure to `scipy.optimize.fsolve` seeded at `1.0` and
returns `fsolve(...)[0]` directly.  `fsolve` is external library code,
modelled here as the explicit argument `ntu_solution`; the body applies
no convergence, sign or finiteness check to it and has no error
channel — the solver output is returned to the caller unchanged. -/
def calculate_NTU_from_effectiveness (_s : ThermoFluidProperties)
    (ntu_solution : ℚ) : ℚ :=
  ntu_solution

end ThermoFluidProperties

/-- The fin-efficiency formula of `calculate_fin_efficiency`
(crossflow.py lines 105–130), with the five physical constants left as
arguments: geometric inputs arrive in millimetres and are divided by
1000, then `P = 2*w + 2*t`, `A_c = w*t`, `L_c = L + t/2`,
`m = sqrt((h*P)/(k*A_c))`, and the result is `tanh(m*L_c)/(m*L_c)`. -/
noncomputable def finEfficiencyFormula (h k w_mm t_mm L_mm : ℝ) : ℝ :=
  let w := w_mm / 1000
  let t := t_mm / 1000
  let L := L_mm / 1000
  let P := 2 * w + 2 * t
  let A_c := w * t
  let L_c := L + t / 2
  let m := Real.sqrt ((h * P) / (k * A_c))
  Real.tanh (m * L_c) / (m * L_c)

/-- `calculate_fin_efficiency` (lines 105–130): the method ignores
`self` and evaluates the fin formula at the constants hard-coded in its
body: `h = 100`, `k = 401`, `w = 16.1 mm`, `t = 0.11 mm`,
`L = 3.72 mm`. -/
noncomputable def ThermoFluidProperties.calculate_fin_efficiency
    (_s : ThermoFluidProperties) : ℝ :=
  finEfficiencyFormula 100 401 16.1 0.11 3.72

/-- A state whose mass-flow caches are populated (water at the reference
0.035 kg/s, air set to the same number for concreteness) and whose
inlet temperatures are equal, making `q_max` zero. -/
def stateEqualInlets : ThermoFluidProperties :=
  { water_mass_flow_rate := some (7/200), air_mass_flow_rate := some (7/200),
    T_hot_in := 25.5, T_cold_in := 25.5 }

/-- A state with populated mass-flow caches and nearly equal inlet
temperatures (`T_hot_in = 25.6`, `T_cold_in = 25.5`), all quantities
positive and finite. -/
def stateNearEqualInlets : ThermoFluidProperties :=
  { water_mass_flow_rate := some (7/200), air_mass_flow_rate := some (7/200),
    T_hot_in := 25.6, T_cold_in := 25.5 }

/-- A state with the water mass flow populated and a zero cold-side
temperature change. -/
def stateZeroAirDeltaT : ThermoFluidProperties :=
  { water_mass_flow_rate := some (7/200), air_temp_change := 0 }

/-- A state with both mass-flow caches populated and otherwise default
fields. -/
def stateBothFlowsSet : ThermoFluidProperties :=
  { water_mass_flow_rate := some (7/200), air_mass_flow_rate := some (7/200) }

/-- The state of the reference run right after `calculate_air_mass_flow`:
water mass flow `0.035 kg/s` and the air mass flow it implies. -/
def stateReferenceFlows : ThermoFluidProperties :=
  { water_mass_flow_rate := some (7/200), air_mass_flow_rate := some (209/25125) }

/-- The state `stateBothFlowsSet` after `calculate_heat_capacity_rates`:
`C_h = 0.035 × 4.18 × 1000 = 146.3` and `C_c = 0.035 × 1.005 × 1000 =
35.175`, so `cr = 35.175/146.3 = 201/836` and `cmin = 35.175`. -/
def stateBothFlowsRated : ThermoFluidProperties :=
  { stateBothFlowsSet with cr := some (201/836), cmin := some (1407/40) }

/-- The state `stateReferenceFlows` after `calculate_heat_capacity_rates`:
`C_h = 146.3` and `C_c = (209/25125) × 1.005 × 1000 = 8.36`, so
`cr = 8.36/146.3 = 2/35` and `cmin = 8.36`. -/
def stateReferenceFlowsRated : ThermoFluidProperties :=
  { stateReferenceFlows with cr := some (2/35), cmin := some (209/25) }

/-- The scalars printed by the `__main__` block (lines 132–170). -/
structure MainResults where
  water_mass : ℚ
  duty : ℚ
  air_mass : ℚ
  C_h : ℚ
  C_c : ℚ
  q_actual : ℚ
  q_max : ℚ
  effectiveness : ℚ
  ntu : ℚ
  UA : ℚ
deriving DecidableEq, Repr

open ThermoFluidProperties in
/-- The `__main__` block (lines 132–170): constructs the default
instance and runs the calculation chain in program order, publishing
each printed scalar.  The thermal conductance printed on line 167 is
`ntu * C_c` with `C_c` the value returned by
`calculate_heat_capacity_rates` on line 148.  The `fsolve` output is
the explicit argument `ntu_solution`. -/
def mainRun (ntu_solution : ℚ) : Except PyError MainResults := do
  let instance1 : ThermoFluidProperties := {}
  let (s1, water_mass) := calculate_water_mass_flow instance1
  let duty ← calculate_duty s1
  let (s2, air_mass) ← calculate_air_mass_flow s1
  let (s3, C_h, C_c) ← calculate_heat_capacity_rates s2
  let (s4, q_actual) ← calculate_actual_heat_transfer s3
  let (s5, q_max) ← calculate_max_heat_transfer s4
  let (s6, effectiveness) ← calculate_effectiveness s5
  let ntu := calculate_NTU_from_effectiveness s6 ntu_solution
  pure { water_mass, duty, air_mass, C_h, C_c, q_actual, q_max,
         effectiveness, ntu, UA := ntu * C_c }

open ThermoFluidProperties

/-- Reduction of `Except` bind on a success value. -/
@[simp] theorem exceptBind_ok {α β ε : Type} (a : α) (f : α → Except ε β) :
    (Except.ok a : Except ε α) >>= f = f a := rfl

/-- Reduction of `Except` bind on an error value. -/
@[simp] theorem exceptBind_error {α β ε : Type} (e : ε) (f : α → Except ε β) :
    (Except.error e : Except ε α) >>= f = Except.error e := rfl

/-- `pure` into `Except` is `Except.ok`. -/
@[simp] theorem exceptPure_eq_ok {α ε : Type} (a : α) :
    (pure a : Except ε α) = Except.ok a := rfl

/-- Reduction of `Except.map` on a success value. -/
@[simp] theorem exceptMap_ok {α β ε : Type} (f : α → β) (a : α) :
    (Except.ok a : Except ε α).map f = Except.ok (f a) := rfl

/-- Reduction of `Except.map` on an error value. -/
@[simp] theorem exceptMap_error {α β ε : Type} (f : α → β) (e : ε) :
    (Except.error e : Except ε α).map f = Except.error e := rfl

/-- Reading a populated `Optional` field succeeds. -/
@[simp] theorem getFloat_some (v : ℚ) : getFloat (some v) = .ok v := rfl

/-- Reading a `None` field raises `TypeError`. -/
@[simp] theorem getFloat_none : getFloat none = .error .typeError := rfl

/-- C10: the derived fields `deltaT1`, `deltaT2`, `water_temp_change`
and `air_temp_change` hold the values computed once from the
class-default temperatures — `4.4`, `20.9`, `1.0` and `17.5` — and a
construction that supplies the four boundary temperatures stores those
temperatures but leaves the four derived fields at the default-derived
values, whatever the supplied temperatures are. -/
theorem C10_frozen_delta_fields :
    ∀ thIn thOut tcIn tcOut : ℚ,
      (mkWithTemperatures thIn thOut tcIn tcOut).T_hot_in = thIn ∧
      (mkWithTemperatures thIn thOut tcIn tcOut).T_hot_out = thOut ∧
      (mkWithTemperatures thIn thOut tcIn tcOut).T_cold_in = tcIn ∧
      (mkWithTemperatures thIn thOut tcIn tcOut).T_cold_out = tcOut ∧
      (mkWithTemperatures thIn thOut tcIn tcOut).deltaT1 = 4.4 ∧
      (mkWithTemperatures thIn thOut tcIn tcOut).deltaT2 = 20.9 ∧
      (mkWithTemperatures thIn thOut tcIn tcOut).water_temp_change = 1.0 ∧
      (mkWithTemperatures thIn thOut tcIn tcOut).air_temp_change = 17.5 := by
  intro thIn thOut tcIn tcOut
  refine ⟨rfl, rfl, rfl, rfl, by norm_num [mkWithTemperatures],
    by norm_num [mkWithTemperatures], by norm_num [mkWithTemperatures],
    by norm_num [mkWithTemperatures]⟩

/-- C6: on the default state, `calculate_water_mass_flow` returns
exactly `0.035 kg/s` (`2.10 × (1/1000) × (1/60) × 1000`), and
`calculate_duty` on the updated state returns exactly `146.3 W`. -/
theorem C6_reference_water_mass_and_duty :
    (calculate_water_mass_flow {}).2 = 0.035 ∧
    calculate_duty (calculate_water_mass_flow {}).1 = .ok 146.3 := by
  constructor
  · norm_num [calculate_water_mass_flow]
  · norm_num [calculate_duty, calculate_water_mass_flow, getFloat]

/-- C3 amended: `calculate_NTU_from_effectiveness` applies no
convergence, sign or finiteness check to the root-finder output and has
no failure channel: whatever value `fsolve` produced is returned to the
caller unchanged. -/
theorem C3_amended_no_solver_checks :
    ∀ (s : ThermoFluidProperties) (n : ℚ),
      calculate_NTU_from_effectiveness s n = n := by
  intro s n
  rfl

/-- C3 counterexample: a negative root-finder output (`-1`) is returned
to the caller as the NTU instead of being reported as a
`SolverNonConvergence` failure — the return type of the operation has no
error channel at all. -/
theorem C3_counterexample :
    calculate_NTU_from_effectiveness {} (-1) = -1 ∧ (-1 : ℚ) < 0 := by
  exact ⟨rfl, by norm_num⟩

/-- C2 counterexample: on a state with the water mass flow populated
and `air_temp_change = 0`, `calculate_air_mass_flow` raises the Python
built-in `ZeroDivisionError` — the uncontrolled arithmetic exception —
rather than any distinct `DegenerateCondition` error (no such error
class exists in the code). -/
theorem C2_counterexample :
    calculate_air_mass_flow stateZeroAirDeltaT =
      .error .zeroDivisionError := by
  norm_num [calculate_air_mass_flow, calculate_duty, stateZeroAirDeltaT, pyDiv]

/-- C2 amended: whenever the cold-side temperature change is zero (and
the water mass flow is populated), `calculate_air_mass_flow` fails with
the built-in `ZeroDivisionError`, which propagates to the caller; it is
not converted into any repository-specific error. -/
theorem C2_amended_zero_deltaT_raises_builtin :
    ∀ (s : ThermoFluidProperties) (wm : ℚ),
      s.water_mass_flow_rate = some wm → s.air_temp_change = 0 →
      calculate_air_mass_flow s = .error .zeroDivisionError := by
  intro s wm hwm hdt
  simp [calculate_air_mass_flow, calculate_duty, hwm, hdt, pyDiv]

/-- C2 amended, witness: the amended statement applied to the concrete
zero-ΔT state. -/
theorem C2_amended_witness :
    stateZeroAirDeltaT.water_mass_flow_rate = some (7/200) ∧
    stateZeroAirDeltaT.air_temp_change = 0 ∧
    calculate_air_mass_flow stateZeroAirDeltaT =
      .error .zeroDivisionError :=
  ⟨rfl, rfl,
    C2_amended_zero_deltaT_raises_builtin stateZeroAirDeltaT (7/200) rfl rfl⟩

/-- C9: for every root-finder output `n`, the `__main__` block's
published thermal conductance is `UA = NTU × C_c`, where NTU is the
solver output and `C_c` is the cold-side capacity rate returned by
`calculate_heat_capacity_rates`. -/
theorem C9_UA_eq_NTU_mul_Cc :
    ∀ n : ℚ,
      (mainRun n).map (fun r => (r.UA, r.ntu)) =
      (mainRun n).map (fun r => (r.ntu * r.C_c, n)) := by
  intro n
  norm_num [mainRun, calculate_water_mass_flow, calculate_duty,
    calculate_air_mass_flow, calculate_heat_capacity_rates,
    calculate_actual_heat_transfer, calculate_max_heat_transfer,
    calculate_effectiveness, calculate_NTU_from_effectiveness, pyDiv]

/-- Inversion of a successful `calculate_heat_capacity_rates` call: the
returned rates are the mass-flow × specific-heat products, the hot rate
is nonzero (else the `cr` division would have raised), and the updated
state caches `cr = C_c / C_h` and `cmin = C_h if C_h ≤ C_c else C_c`. -/
theorem heat_capacity_rates_ok
    (s s1 : ThermoFluidProperties) (C_h C_c : ℚ)
    (h : calculate_heat_capacity_rates s = .ok (s1, C_h, C_c)) :
    ∃ wm am, s.water_mass_flow_rate = some wm ∧
      s.air_mass_flow_rate = some am ∧
      C_h = wm * s.water_specific_heat * 1000 ∧
      C_c = am * s.air_specific_heat * 1000 ∧
      C_h ≠ 0 ∧
      s1 = { s with cr := some (C_c / C_h),
                    cmin := some (if C_h ≤ C_c then C_h else C_c) } := by
  cases hwm : s.water_mass_flow_rate with
  | none => rw [calculate_heat_capacity_rates, hwm] at h; simp at h
  | some wm =>
    cases ham : s.air_mass_flow_rate with
    | none => rw [calculate_heat_capacity_rates, hwm, ham] at h; simp at h
    | some am =>
      rw [calculate_heat_capacity_rates, hwm, ham] at h
      simp only [getFloat_some, exceptBind_ok, pyDiv] at h
      split at h
      · simp at h
      · rename_i hch
        simp only [exceptBind_ok, exceptPure_eq_ok, Except.ok.injEq,
          Prod.mk.injEq] at h
        obtain ⟨hs1, hCh, hCc⟩ := h
        refine ⟨wm, am, rfl, rfl, hCh.symm, hCc.symm, ?_, ?_⟩
        · rw [← hCh]; exact hch
        · rw [← hs1, hCh, hCc]

/-- C4: whenever `calculate_heat_capacity_rates` succeeds and both
returned capacity rates are positive, the cached `cmin` field of the
updated state equals `min C_h C_c` of the two returned values. -/
theorem C4_cmin_is_min :
    ∀ (s s1 : ThermoFluidProperties) (C_h C_c : ℚ),
      0 < C_h → 0 < C_c →
      calculate_heat_capacity_rates s = .ok (s1, C_h, C_c) →
      s1.cmin = some (min C_h C_c) := by
  intro s s1 C_h C_c _ _ h
  obtain ⟨wm, am, _, _, _, _, _, hs1⟩ := heat_capacity_rates_ok s s1 C_h C_c h
  rw [hs1]
  simp [min_def]

/-- C4, witness: on the state with both mass flows set to `0.035`, the
returned rates are `C_h = 146.3` and `C_c = 35.175`, both positive, and
the cached `cmin` is their minimum. -/
theorem C4_witness :
    (0 : ℚ) < 1463/10 ∧ (0 : ℚ) < 1407/40 ∧
    calculate_heat_capacity_rates stateBothFlowsSet =
      .ok (stateBothFlowsRated, 1463/10, 1407/40) ∧
    stateBothFlowsRated.cmin = some (min (1463/10) (1407/40)) := by
  have hrun : calculate_heat_capacity_rates stateBothFlowsSet =
      .ok (stateBothFlowsRated, 1463/10, 1407/40) := by
    norm_num [calculate_heat_capacity_rates, stateBothFlowsSet,
      stateBothFlowsRated, pyDiv]
  exact ⟨by norm_num, by norm_num, hrun,
    C4_cmin_is_min stateBothFlowsSet _ _ _ (by norm_num) (by norm_num) hrun⟩

/-- C8: whenever `calculate_heat_capacity_rates` succeeds, the cached
capacity-ratio field of the updated state is `cr = C_c / C_h` — the
cold rate over the hot rate — irrespective of which of the two rates is
the minimum. -/
theorem C8_cr_is_Cc_div_Ch :
    ∀ (s s1 : ThermoFluidProperties) (C_h C_c : ℚ),
      calculate_heat_capacity_rates s = .ok (s1, C_h, C_c) →
      s1.cr = some (C_c / C_h) := by
  intro s s1 C_h C_c h
  obtain ⟨wm, am, _, _, _, _, _, hs1⟩ := heat_capacity_rates_ok s s1 C_h C_c h
  rw [hs1]

/-- C8, witness: on the reference-flow state, `C_h = 146.3 > C_c =
209/25 = 8.36`, and the cached ratio is `C_c / C_h = 2/35` — the
`C_c / C_h` convention even though here `C_c` is the minimum. -/
theorem C8_witness :
    calculate_heat_capacity_rates stateReferenceFlows =
      .ok (stateReferenceFlowsRated, 1463/10, 209/25) ∧
    stateReferenceFlowsRated.cr = some ((209/25) / (1463/10)) := by
  have hrun : calculate_heat_capacity_rates stateReferenceFlows =
      .ok (stateReferenceFlowsRated, 1463/10, 209/25) := by
    norm_num [calculate_heat_capacity_rates, stateReferenceFlows,
      stateReferenceFlowsRated, pyDiv]
  exact ⟨hrun, C8_cr_is_Cc_div_Ch stateReferenceFlows _ _ _ hrun⟩

/-- C1 counterexample: `calculate_effectiveness` has no validation. On
a valid-input state with equal inlet temperatures it raises the Python
built-in `ZeroDivisionError` — not any `DegenerateCondition` or
`InvalidInput` error, no such classes exist in the code — and on a
valid-input state with nearly equal inlets it returns the effectiveness
`8360/201 ≈ 41.6`, far outside `(0, 1]`, to the caller. -/
theorem C1_counterexample :
    calculate_effectiveness stateEqualInlets = .error .zeroDivisionError ∧
    (calculate_effectiveness stateNearEqualInlets).map (fun p => p.2) =
      .ok (8360/201) ∧
    (1 : ℚ) < 8360/201 := by
  refine ⟨?_, ?_, by norm_num⟩
  · norm_num [calculate_effectiveness, calculate_actual_heat_transfer,
      calculate_max_heat_transfer, calculate_heat_capacity_rates,
      stateEqualInlets, pyDiv]
  · norm_num [calculate_effectiveness, calculate_actual_heat_transfer,
      calculate_max_heat_transfer, calculate_heat_capacity_rates,
      stateNearEqualInlets, pyDiv]

/-- C1 amended: with both mass-flow caches populated and a nonzero hot
capacity rate, `calculate_effectiveness` returns the raw quotient
`q_actual / q_max` whenever `q_max ≠ 0` — with no `(0, 1]` range check —
and raises the built-in `ZeroDivisionError` when `q_max = 0`; here
`q_actual = C_h · water_temp_change` and
`q_max = min C_h C_c · (T_hot_in − T_cold_in)`. -/
theorem C1_amended_no_validation :
    ∀ (s : ThermoFluidProperties) (wm am : ℚ),
      s.water_mass_flow_rate = some wm →
      s.air_mass_flow_rate = some am →
      wm * s.water_specific_heat * 1000 ≠ 0 →
      (calculate_effectiveness s).map (fun p => p.2) =
        (if min (wm * s.water_specific_heat * 1000)
              (am * s.air_specific_heat * 1000) *
              (s.T_hot_in - s.T_cold_in) = 0
         then .error .zeroDivisionError
         else .ok ((wm * s.water_specific_heat * 1000 * s.water_temp_change) /
           (min (wm * s.water_specific_heat * 1000)
              (am * s.air_specific_heat * 1000) *
              (s.T_hot_in - s.T_cold_in)))) := by
  intro s wm am hwm ham hch
  simp only [calculate_effectiveness, calculate_actual_heat_transfer,
    calculate_max_heat_transfer, calculate_heat_capacity_rates, hwm, ham,
    getFloat_some, exceptBind_ok, pyDiv, if_neg hch, exceptPure_eq_ok]
  rw [min_def]
  split_ifs <;> simp

/-- C1 amended, witness: the amended statement applied to the
nearly-equal-inlets state, where the returned effectiveness is
`8360/201`, outside `(0, 1]`. -/
theorem C1_amended_witness :
    stateNearEqualInlets.water_mass_flow_rate = some (7/200) ∧
    stateNearEqualInlets.air_mass_flow_rate = some (7/200) ∧
    (7/200 : ℚ) * stateNearEqualInlets.water_specific_heat * 1000 ≠ 0 ∧
    (calculate_effectiveness stateNearEqualInlets).map (fun p => p.2) =
      (if min ((7/200 : ℚ) * stateNearEqualInlets.water_specific_heat * 1000)
            ((7/200 : ℚ) * stateNearEqualInlets.air_specific_heat * 1000) *
            (stateNearEqualInlets.T_hot_in - stateNearEqualInlets.T_cold_in) = 0
       then .error .zeroDivisionError
       else .ok (((7/200 : ℚ) * stateNearEqualInlets.water_specific_heat * 1000 *
            stateNearEqualInlets.water_temp_change) /
           (min ((7/200 : ℚ) * stateNearEqualInlets.water_specific_heat * 1000)
              ((7/200 : ℚ) * stateNearEqualInlets.air_specific_heat * 1000) *
              (stateNearEqualInlets.T_hot_in - stateNearEqualInlets.T_cold_in)))) :=
  ⟨rfl, rfl, by norm_num [stateNearEqualInlets],
    C1_amended_no_validation stateNearEqualInlets (7/200) (7/200) rfl rfl
      (by norm_num [stateNearEqualInlets])⟩

/-- Auxiliary inequality for the fin bound: `sinh x ≤ x · cosh x` for
nonnegative `x`; the function `z·cosh z − sinh z` vanishes at `0` and
has the nonnegative derivative `z·sinh z` on `[0, ∞)`. -/
theorem sinh_le_mul_cosh {x : ℝ} (hx : 0 ≤ x) :
    Real.sinh x ≤ x * Real.cosh x := by
  have hderiv : ∀ y : ℝ,
      HasDerivAt (fun z : ℝ => z * Real.cosh z - Real.sinh z)
        (y * Real.sinh y) y := by
    intro y
    have h1 : HasDerivAt (fun z : ℝ => z * Real.cosh z - Real.sinh z)
        (1 * Real.cosh y + y * Real.sinh y - Real.cosh y) y :=
      ((hasDerivAt_id y).mul (Real.hasDerivAt_cosh y)).sub (Real.hasDerivAt_sinh y)
    have heq : 1 * Real.cosh y + y * Real.sinh y - Real.cosh y
        = y * Real.sinh y := by ring
    rw [heq] at h1
    exact h1
  have hmono : MonotoneOn (fun z : ℝ => z * Real.cosh z - Real.sinh z)
      (Set.Ici 0) := by
    apply monotoneOn_of_deriv_nonneg (convex_Ici 0)
    · exact ((continuous_id.mul Real.continuous_cosh).sub
        Real.continuous_sinh).continuousOn
    · intro y _
      exact (hderiv y).differentiableAt.differentiableWithinAt
    · intro y hy
      rw [interior_Ici, Set.mem_Ioi] at hy
      rw [(hderiv y).deriv]
      exact mul_nonneg hy.le (Real.sinh_nonneg_iff.mpr hy.le)
  have h0 := hmono Set.left_mem_Ici (Set.mem_Ici.mpr hx) hx
  simp only [Real.cosh_zero, Real.sinh_zero, zero_mul, sub_zero] at h0
  linarith

/-- For every positive `x`, the ratio `tanh x / x` lies in `(0, 1]`. -/
theorem tanh_ratio_pos_le_one (x : ℝ) (hx : 0 < x) :
    0 < Real.tanh x / x ∧ Real.tanh x / x ≤ 1 := by
  have hcosh := Real.cosh_pos x
  have hsinh : 0 < Real.sinh x := Real.sinh_pos_iff.mpr hx
  have htanh_pos : 0 < Real.tanh x := by
    rw [Real.tanh_eq_sinh_div_cosh]
    exact div_pos hsinh hcosh
  have htanh_le : Real.tanh x ≤ x := by
    rw [Real.tanh_eq_sinh_div_cosh, div_le_iff₀ hcosh]
    exact sinh_le_mul_cosh hx.le
  exact ⟨div_pos htanh_pos hx, (div_le_one hx).mpr htanh_le⟩

/-- C7: `calculate_fin_efficiency` evaluates the corrected straight-fin
formula `tanh(m·L_c)/(m·L_c)` — with `P = 2w + 2t`, `A_c = w·t`,
`L_c = L + t/2`, `m = sqrt(h·P/(k·A_c))` and the mm→m conversions — at
its hard-coded constants, and for all positive inputs that formula
lies in `(0, 1]`. -/
theorem C7_fin_efficiency_in_unit_interval :
    (∀ s : ThermoFluidProperties,
      s.calculate_fin_efficiency = finEfficiencyFormula 100 401 16.1 0.11 3.72) ∧
    ∀ h k w_mm t_mm L_mm : ℝ,
      0 < h → 0 < k → 0 < w_mm → 0 < t_mm → 0 < L_mm →
      0 < finEfficiencyFormula h k w_mm t_mm L_mm ∧
      finEfficiencyFormula h k w_mm t_mm L_mm ≤ 1 := by
  refine ⟨fun _ => rfl, ?_⟩
  intro h k w t L hh hk hw ht hL
  simp only [finEfficiencyFormula]
  exact tanh_ratio_pos_le_one _ (by positivity)

/-- C7, witness: the bound applied at the source's own constants
`h = 100`, `k = 401`, `w = 16.1`, `t = 0.11`, `L = 3.72`. -/
theorem C7_witness :
    (0:ℝ) < 100 ∧ (0:ℝ) < 401 ∧ (0:ℝ) < 16.1 ∧ (0:ℝ) < 0.11 ∧ (0:ℝ) < 3.72 ∧
    (0 < finEfficiencyFormula 100 401 16.1 0.11 3.72 ∧
      finEfficiencyFormula 100 401 16.1 0.11 3.72 ≤ 1) :=
  ⟨by norm_num, by norm_num, by norm_num, by norm_num, by norm_num,
    C7_fin_efficiency_in_unit_interval.2 100 401 16.1 0.11 3.72
      (by norm_num) (by norm_num) (by norm_num) (by norm_num) (by norm_num)⟩
